import Mathlib

/-!
Verification of the validation and CSV-persistence core of the ABQ data
entry application (`abq_data_entry/models.py`, `abq_data_entry/widgets.py`,
`abq_data_entry/views.py`).

The embedding below translates the relevant Python functions into pure
Lean functions:

* `CSVModel.fields` becomes `csvModelFields` / `canonicalFields`;
* `CSVModel.save_record`, `CSVModel.get_all_records`, `CSVModel.get_record`
  become `save_record`, `get_all_records`, `get_record` over an explicit
  file state (`StoreFile`), where `none` models an absent file and
  `some (header, rows)` models a CSV file with its header row and data rows;
* the widget validators (`DateEntry._focusout_validate`,
  `ValidatedCombobox._key_validate`, `ValidatedSpinbox._key_validate`,
  `ValidatedSpinbox._focusout_validate`, `LabelInput._check_disable`) become
  functions from their inputs to the validation outcome and the resulting
  error variable / widget state.

Python `decimal.Decimal` values are modelled exactly by a mantissa and a
base-ten exponent (`Decimal` below); the error messages set through
`error.set(...)` are modelled by the `ErrKind` enumeration, one constructor
per distinct message site in the source.
-/

/-! ### Field model (models.py, `CSVModel.fields`) -/

/-- Field type tags, mirroring `constants.FieldTypes`. -/
inductive FieldType where
  | string
  | string_list
  | short_string_list
  | iso_date_string
  | long_string
  | decimal
  | integer
  | boolean
deriving DecidableEq, Repr

/-- One entry of the `CSVModel.fields` dict: the `req` flag and the `type` tag
(the numeric bounds and choice values are inlined at their use sites). -/
structure FieldSpec where
  req : Bool
  ftype : FieldType
deriving DecidableEq, Repr

/-- The `CSVModel.fields` dict of models.py: the canonical field keys in
their canonical order, with their `req` and `type` metadata. -/
def csvModelFields : List (String × FieldSpec) :=
  [("Date", ⟨true, .iso_date_string⟩),
   ("Time", ⟨true, .string_list⟩),
   ("Technician", ⟨true, .string⟩),
   ("Lab", ⟨true, .short_string_list⟩),
   ("Plot", ⟨true, .string_list⟩),
   ("Seed Sample", ⟨true, .string⟩),
   ("Humidity", ⟨true, .decimal⟩),
   ("Light", ⟨true, .decimal⟩),
   ("Temperature", ⟨true, .decimal⟩),
   ("Equipment Fault", ⟨false, .boolean⟩),
   ("Plants", ⟨true, .integer⟩),
   ("Blossoms", ⟨true, .integer⟩),
   ("Fruit", ⟨true, .integer⟩),
   ("Min Height", ⟨true, .decimal⟩),
   ("Max Height", ⟨true, .decimal⟩),
   ("Med Height", ⟨true, .decimal⟩),
   ("Notes", ⟨false, .long_string⟩)]

/-- `self.fields.keys()`: the canonical field keys in canonical order. -/
def canonicalFields : List String := csvModelFields.map Prod.fst

/-- `bool_fields` of `get_all_records`: the keys whose field type is
`FT.boolean`. -/
def boolFields : List String :=
  (csvModelFields.filter (fun kv => kv.2.ftype == FieldType.boolean)).map Prod.fst

/-! ### Error kinds

The widget validators report errors by assigning message strings to the
widget's `error` variable.  Each distinct message site of the source is
mapped to one constructor; `none` models the empty error string (set by
`ValidatedMixin._validate` before each validation run). -/

/-- Error kinds of the validators: `missingValue` models
`error.set('A value is required')`, `invalidDate` models
`error.set('Invalid date')`, `invalidNumber` models
`error.set(f'Invalid number string: {value}')`, `tooLow` models
`error.set(f'Value is too low (min {min_val})')` and `tooHigh` models
`error.set(f'Value is too high (max {max_val})')`. -/
inductive ErrKind where
  | missingValue
  | invalidDate
  | invalidNumber
  | tooLow
  | tooHigh
deriving DecidableEq, Repr

/-! ### String helpers

Python string operations are modelled over the character list of the
string, so that every definition evaluates by kernel reduction. -/

/-- Python `str.lower` (exact on the ASCII strings these claims use). -/
def pyLower (s : String) : String := ⟨s.data.map Char.toLower⟩

/-- Does the first list start with the second one? -/
def listPrefixEq : List Char → List Char → Bool
  | [], _ => true
  | _ :: _, [] => false
  | a :: as, b :: bs => a == b && listPrefixEq as bs

/-- Python `s.startswith(pre)`. -/
def pyStartsWith (s pre : String) : Bool := listPrefixEq pre.data s.data

/-- Python `c in s` for a single character `c`. -/
def pyContainsChar (s : String) (c : Char) : Bool := s.data.contains c

/-- Python `s.split(sep)` for a one-character separator. -/
def splitOnChar (sep : Char) : List Char → List (List Char)
  | [] => [[]]
  | c :: rest =>
    let r := splitOnChar sep rest
    if c = sep then [] :: r
    else
      match r with
      | [] => [[c]]
      | h :: t => (c :: h) :: t

/-! ### Python `decimal.Decimal` values -/

/-- An exact model of a finite Python `decimal.Decimal` value: the value is
`mant * 10 ^ exp`.  `as_tuple().exponent` of the Python object is `exp`
(trailing zeros of the coefficient are preserved, so `Decimal("52.00")` is
`⟨5200, -2⟩`). -/
structure Decimal where
  mant : Int
  exp : Int
deriving DecidableEq, Repr

/-- The rational value of a `Decimal`. -/
def Decimal.val (d : Decimal) : ℚ := (d.mant : ℚ) * (10 : ℚ) ^ d.exp

/-- Comparison of two `Decimal`s (Python `<` on `decimal.Decimal`,
also used for the mixed `Decimal`/float comparisons of the source, which
Python evaluates exactly).  Both mantissas are brought to the smaller
exponent and compared as integers. -/
def Decimal.blt (a b : Decimal) : Bool :=
  if a.exp ≤ b.exp then
    decide (a.mant < b.mant * (10 : Int) ^ (b.exp - a.exp).toNat)
  else
    decide (a.mant * (10 : Int) ^ (a.exp - b.exp).toNat < b.mant)

/-- Python `<=` on exact decimal values, expressed through `Decimal.blt`
(the order is total, so `a <= b` is `not (b < a)`). -/
def Decimal.ble (a b : Decimal) : Bool := !(Decimal.blt b a)

/-- Digit string to number, used by the numeral parsers. -/
def digitsToNat (cs : List Char) : Nat :=
  cs.foldl (fun n c => 10 * n + (c.toNat - 48)) 0

/-- All-digit check plus value for a nonempty digit run. -/
def parseNatDigits (cs : List Char) : Option Nat :=
  if cs.isEmpty then none
  else if cs.all Char.isDigit then some (digitsToNat cs)
  else none

/-- Splits a character list at the first occurrence of `sep`; the second
component is `none` when `sep` does not occur. -/
def splitFirstChar (sep : Char) : List Char → List Char × Option (List Char)
  | [] => ([], none)
  | c :: rest =>
    if c = sep then ([], some rest)
    else
      let p := splitFirstChar sep rest
      (c :: p.1, p.2)

/-- Optionally signed digit run, for the exponent part of a numeral. -/
def parseSignedInt : List Char → Option Int
  | '-' :: rest => (parseNatDigits rest).map (fun n => -(n : Int))
  | '+' :: rest => (parseNatDigits rest).map (fun n => (n : Int))
  | cs => (parseNatDigits cs).map (fun n => (n : Int))

/-- Model of the Python `decimal.Decimal(string)` constructor on finite
numerals: an optional sign, a coefficient with an optional decimal point,
and an optional scientific exponent.  `none` models the
`decimal.InvalidOperation` exception.  (Surrounding whitespace, underscore
separators and the special values `Infinity`/`NaN` are outside every string
reachable in the claims and are not modelled.) -/
def decParse (s : String) : Option Decimal :=
  let cs := s.toList.map Char.toLower
  let signAndRest : Bool × List Char :=
    match cs with
    | '-' :: rest => (true, rest)
    | '+' :: rest => (false, rest)
    | _ => (false, cs)
  let neg := signAndRest.1
  let p := splitFirstChar 'e' signAndRest.2
  let q := splitFirstChar '.' p.1
  let intPart := q.1
  let fracPart := (q.2).getD []
  if !(intPart.all Char.isDigit) then none
  else if !(fracPart.all Char.isDigit) then none
  else if intPart.isEmpty && fracPart.isEmpty then none
  else
    let mantNat := digitsToNat (intPart ++ fracPart)
    let mant : Int := if neg then -(mantNat : Int) else (mantNat : Int)
    let exp0 : Int := -(fracPart.length : Int)
    match p.2 with
    | none => some ⟨mant, exp0⟩
    | some ecs => (parseSignedInt ecs).map (fun e => ⟨mant, exp0 + e⟩)

/-! ### DateEntry (widgets.py) -/

/-- Gregorian leap-year rule (`datetime` module semantics). -/
def isLeap (y : Nat) : Bool := y % 4 == 0 && (y % 100 != 0 || y % 400 == 0)

/-- Number of days of month `m` of year `y`. -/
def monthDays (y m : Nat) : Nat :=
  if m == 2 then (if isLeap y then 29 else 28)
  else if m == 4 || m == 6 || m == 9 || m == 11 then 30
  else 31

/-- Model of `datetime.strptime(s, '%Y-%m-%d')` succeeding: a four-digit
year of value at least 1, a one- or two-digit month in 1..12, and a one- or
two-digit day that exists in the given month and year (the `datetime`
constructor rejects impossible calendar dates such as February 30). -/
def isValidIsoDate (s : String) : Bool :=
  match splitOnChar '-' s.data with
  | [ys, ms, ds] =>
    ys.length == 4 && ys.all Char.isDigit &&
    decide (1 ≤ ms.length) && decide (ms.length ≤ 2) && ms.all Char.isDigit &&
    decide (1 ≤ ds.length) && decide (ds.length ≤ 2) && ds.all Char.isDigit &&
    (let y := digitsToNat ys
     let m := digitsToNat ms
     let d := digitsToNat ds
     decide (1 ≤ y) && decide (1 ≤ m) && decide (m ≤ 12) &&
     decide (1 ≤ d) && decide (d ≤ monthDays y m))
  | _ => false

/-- `DateEntry._focusout_validate` on the widget text `value`, returning the
validity flag and the final content of the error variable (which
`ValidatedMixin._validate` clears before the check runs).  The source first
sets the required-value error for an empty string and then unconditionally
runs `datetime.strptime`, whose failure overwrites the error with
`'Invalid date'`. -/
def date_focusout_validate (value : String) : Bool × Option ErrKind :=
  let step1 : Bool × Option ErrKind :=
    if value == "" then (false, some .missingValue) else (true, none)
  if isValidIsoDate value then step1 else (false, some .invalidDate)

/-! ### ValidatedCombobox (widgets.py) -/

/-- `ValidatedCombobox._key_validate`.  Returns the validity flag and the
programmatic text change (`some t` models a `self.set(t)` call, `none`
models no call).  On deletion (`action == '0'`) the widget is cleared and
the edit accepted; otherwise the configured `values` are filtered to the
case-insensitive prefix matches of the proposed text: no match rejects the
keystroke, a unique match fills in the full option and rejects the
keystroke, several matches accept it. -/
def combobox_key_validate (values : List String) (proposed action : String) :
    Bool × Option String :=
  if action == "0" then (true, some "")
  else
    let matching := values.filter (fun x => pyStartsWith (pyLower x) (pyLower proposed))
    if matching.length == 0 then (false, none)
    else if matching.length == 1 then (false, some (matching.headD ""))
    else (true, none)

/-! ### ValidatedSpinbox (widgets.py) -/

/-- `ValidatedSpinbox._key_validate`.  `precision` is
`Decimal(str(increment)).normalize().as_tuple().exponent` computed in the
constructor (`0` for integer fields, `-2` for the `.01`-increment decimal
fields); `minVal`/`maxVal` are the `from`/`to` bounds (exact values for
every bound configured in this application).  `char`, `index`, `current`,
`proposed` and `action` are the Tcl substitutions `%S`, `%i`, `%s`, `%P`
and `%d` passed as strings (a keystroke's `%S` is a single character).
`none` models the uncaught `decimal.InvalidOperation` escape of
`Decimal(proposed)`; the membership test `proposed in '-.'` holds in Python
exactly for the substrings `''`, `'-'`, `'.'` and `'-.'`. -/
def spinbox_key_validate (precision : Int) (minVal maxVal : Decimal)
    (char : Char) (index : String) (current proposed action : String) :
    Option Bool :=
  if action == "0" then some true
  else
    let no_negative := Decimal.ble ⟨0, 0⟩ minVal
    let no_decimal := decide (0 ≤ precision)
    if (!(pyContainsChar "-123456789" char)) ||
       (char == '-' && (no_negative || !(index == "0"))) ||
       (char == '.' && (no_decimal || pyContainsChar current '.')) then
      some false
    else if proposed == "-" || proposed == "." || proposed == "-." || proposed == "" then
      some true
    else
      match decParse proposed with
      | none => none
      | some p =>
        if Decimal.blt maxVal p || decide (p.exp < precision) then some false
        else some true

/-- `ValidatedSpinbox._focusout_validate` on the widget text `value`,
returning the validity flag and the final content of the error variable.
A value that `Decimal` cannot parse reports the invalid-number error; a
parsed value below `from` reports the too-low error and one above `to`
the too-high error (two separate `if` statements, the second overwriting
the first's message when both fire). -/
def spinbox_focusout_validate (minVal maxVal : Decimal) (value : String) :
    Bool × Option ErrKind :=
  match decParse value with
  | none => (false, some .invalidNumber)
  | some d =>
    let step1 : Bool × Option ErrKind :=
      if Decimal.blt d minVal then (false, some .tooLow) else (true, none)
    if Decimal.blt maxVal d then (false, some .tooHigh) else step1

/-! ### LabelInput._check_disable and the fault coupling (widgets.py, views.py) -/

/-- The observable state of one `LabelInput` field: whether its input
widget is enabled, the text of its bound variable, and its error variable. -/
structure FieldState where
  enabled : Bool
  value : String
  error : Option ErrKind
deriving DecidableEq, Repr

/-- `LabelInput._check_disable`, run by the `trace_add` callback whenever
the `disable_var` changes: a true flag disables the input and clears both
the value and the error; a false flag re-enables the input and touches
nothing else. -/
def check_disable (disableVarValue : Bool) (st : FieldState) : FieldState :=
  if disableVarValue then ⟨false, "", none⟩
  else { st with enabled := true }

/-- The three numeric fields of the Environment Data section that
`DataRecordForm.__init__` constructs with
`disable_var=self._vars['Equipment Fault']`. -/
structure EnvFields where
  humidity : FieldState
  light : FieldState
  temperature : FieldState
deriving DecidableEq, Repr

/-- Effect of one write of the "Equipment Fault" variable: each of the
three dependent `LabelInput`s runs `_check_disable` with the new flag. -/
def faultChanged (faultOn : Bool) (e : EnvFields) : EnvFields :=
  ⟨check_disable faultOn e.humidity,
   check_disable faultOn e.light,
   check_disable faultOn e.temperature⟩

/-! ### CSVModel record store (models.py) -/

/-- A cell of a record dict: the raw CSV cells are strings, and
`get_all_records` replaces boolean-typed cells by actual booleans. -/
inductive CellValue where
  | str (s : String)
  | bool (b : Bool)
deriving DecidableEq, Repr

/-- A record dict as Python builds it: keys in insertion order with their
cell values. -/
abbrev RecordDict := List (String × CellValue)

/-- One data row of the CSV file. -/
abbrev Row := List String

/-- The store file state: `none` when the file does not exist, otherwise
the header row and the data rows. -/
abbrev StoreFile := Option (List String × List Row)

/-- Store-level failures: `corruptStore` models the
`Exception(f"File is missing fields: ...")` raised by `get_all_records`,
`indexError` models the `IndexError` of a Python list access or
assignment at an out-of-range position. -/
inductive StoreError where
  | corruptStore
  | indexError
deriving DecidableEq, Repr

/-- The truthy-string test of `get_all_records`:
`record[key].lower() in ('true', 'yes', '1')`. -/
def isTruthy (s : String) : Bool := ["true", "yes", "1"].contains (pyLower s)

/-- The record dict `csv.DictReader` yields for one full-length data row
under a duplicate-free header, after the boolean normalization loop of
`get_all_records`: each cell is keyed by its header field, and cells of
boolean-typed fields are replaced by the truthy-string test's result. -/
def readRecord (header : List String) (row : Row) : RecordDict :=
  (header.zip row).map (fun kv =>
    if boolFields.contains kv.1 then (kv.1, CellValue.bool (isTruthy kv.2))
    else (kv.1, CellValue.str kv.2))

/-- How `csv.DictWriter` serializes one cell: strings verbatim, booleans
through `str()` (`"True"` / `"False"`). -/
def writeCell : CellValue → String
  | .str s => s
  | .bool b => if b then "True" else "False"

/-- First value stored under key `k` in a record dict. -/
def lookupCell (d : RecordDict) (k : String) : Option CellValue :=
  (d.find? (fun kv => kv.1 == k)).map Prod.snd

/-- `csv.DictWriter(..., fieldnames=self.fields.keys()).writerow(d)`: one
cell per canonical field, in canonical order, empty for a key the dict
lacks.  (Every dict written by the source carries exactly the canonical
keys, so the writer's extra-key check never fires and is not modelled.) -/
def serializeRow (d : RecordDict) : Row :=
  canonicalFields.map (fun k =>
    match lookupCell d k with
    | some v => writeCell v
    | none => "")

/-- The record dict the form hands to `save_record`: a value for each
canonical field, in canonical order.  `data` lists the values. -/
def rawDict (data : Row) : RecordDict :=
  (canonicalFields.zip data).map (fun kv => (kv.1, CellValue.str kv.2))

/-- Python sequence indexing: a negative index counts from the end, and
an index out of range after that adjustment raises `IndexError` (`none`). -/
def pyIndex (n : Nat) (i : Int) : Option Nat :=
  let j := if i < 0 then i + n else i
  if 0 ≤ j ∧ j < n then some j.toNat else none

/-- `CSVModel.get_all_records`: an absent file yields the empty list; an
existing file whose header misses any canonical key raises the
missing-fields exception; otherwise the rows are returned in file order as
record dicts with boolean-typed cells normalized. -/
def get_all_records (f : StoreFile) : Except StoreError (List RecordDict) :=
  match f with
  | none => .ok []
  | some (header, rows) =>
    let missing := canonicalFields.filter (fun k => !(header.contains k))
    if missing.isEmpty then .ok (rows.map (readRecord header))
    else .error .corruptStore

/-- `CSVModel.save_record`.  With `rownum = none` the record is appended
(writing the canonical header first when the file does not yet exist); with
`rownum = some p` all records are read back, the one at position `p` is
replaced by the new dict, and the file is rewritten with the canonical
header followed by every record re-serialized. -/
def save_record (f : StoreFile) (data : Row) (rownum : Option Int) :
    Except StoreError StoreFile :=
  match rownum with
  | none =>
    match f with
    | none => .ok (some (canonicalFields, [data]))
    | some (header, rows) => .ok (some (header, rows ++ [data]))
  | some p =>
    match get_all_records f with
    | .error e => .error e
    | .ok records =>
      match pyIndex records.length p with
      | none => .error .indexError
      | some j =>
        let records := records.set j (rawDict data)
        .ok (some (canonicalFields, records.map serializeRow))

/-- `CSVModel.get_record`: `self.get_all_records()[rownum]` with Python
list indexing. -/
def get_record (f : StoreFile) (rownum : Int) : Except StoreError RecordDict :=
  match get_all_records f with
  | .error e => .error e
  | .ok records =>
    match pyIndex records.length rownum with
    | some j => .ok (records.getD j [])
    | none => .error .indexError

/-- A sample record over the canonical field set, used by the witnesses. -/
def sampleRow : Row :=
  ["2023-02-28", "8:00", "J Tech", "A", "1", "AXM477", "24.47", "1.11",
   "21.44", "TRUE", "14", "27", "3", "1.25", "2.20", "1.81", "ok"]

/-- A second sample record, used by the witnesses. -/
def sampleRow2 : Row :=
  ["2023-03-01", "12:00", "Q Tech", "B", "2", "AXM478", "24.15", "1.10",
   "20.94", "no", "11", "22", "4", "1.30", "2.25", "1.88", ""]

/-- The spec-side reading of one saved record, written from the claim's
words: every field reads back as its stored text, except that a
boolean-typed field reads back as an actual boolean that is true exactly
when the stored text is, case-insensitively, "true", "yes" or "1". -/
def readRecordSpec (r : Row) : RecordDict :=
  (canonicalFields.zip r).map (fun kv =>
    if boolFields.contains kv.1 then
      (kv.1, CellValue.bool
        (pyLower kv.2 == "true" || pyLower kv.2 == "yes" || pyLower kv.2 == "1"))
    else (kv.1, CellValue.str kv.2))

/-- The header of the C5 counterexample file: the canonical fields with
"Plot" omitted. -/
def headerNoPlot : List String := canonicalFields.filter (fun k => !(k == "Plot"))

/-! ### Helper lemmas -/

theorem exists17 (row : List String) (h : row.length = 17) :
    ∃ v0 v1 v2 v3 v4 v5 v6 v7 v8 v9 v10 v11 v12 v13 v14 v15 v16,
      row = [v0, v1, v2, v3, v4, v5, v6, v7, v8, v9, v10, v11, v12, v13, v14, v15, v16] := by
  rcases row with _ | ⟨v0, row⟩; · simp at h
  rcases row with _ | ⟨v1, row⟩; · simp at h
  rcases row with _ | ⟨v2, row⟩; · simp at h
  rcases row with _ | ⟨v3, row⟩; · simp at h
  rcases row with _ | ⟨v4, row⟩; · simp at h
  rcases row with _ | ⟨v5, row⟩; · simp at h
  rcases row with _ | ⟨v6, row⟩; · simp at h
  rcases row with _ | ⟨v7, row⟩; · simp at h
  rcases row with _ | ⟨v8, row⟩; · simp at h
  rcases row with _ | ⟨v9, row⟩; · simp at h
  rcases row with _ | ⟨v10, row⟩; · simp at h
  rcases row with _ | ⟨v11, row⟩; · simp at h
  rcases row with _ | ⟨v12, row⟩; · simp at h
  rcases row with _ | ⟨v13, row⟩; · simp at h
  rcases row with _ | ⟨v14, row⟩; · simp at h
  rcases row with _ | ⟨v15, row⟩; · simp at h
  rcases row with _ | ⟨v16, row⟩; · simp at h
  rcases row with _ | ⟨v17, row⟩
  · exact ⟨v0, v1, v2, v3, v4, v5, v6, v7, v8, v9, v10, v11, v12, v13, v14, v15, v16, rfl⟩
  · simp at h

theorem serializeRow_rawDict (data : Row) (h : data.length = canonicalFields.length) :
    serializeRow (rawDict data) = data := by
  obtain ⟨v0, v1, v2, v3, v4, v5, v6, v7, v8, v9, v10, v11, v12, v13, v14, v15, v16, rfl⟩ :=
    exists17 data (by simpa using h)
  rfl

theorem isTruthy_writeBool (b : Bool) : isTruthy (if b then "True" else "False") = b := by
  cases b <;> rfl

theorem reread_readRecord (row : Row) (h : row.length = canonicalFields.length) :
    readRecord canonicalFields (serializeRow (readRecord canonicalFields row)) =
      readRecord canonicalFields row := by
  obtain ⟨v0, v1, v2, v3, v4, v5, v6, v7, v8, v9, v10, v11, v12, v13, v14, v15, v16, rfl⟩ :=
    exists17 row (by simpa using h)
  show [("Date", CellValue.str v0), ("Time", CellValue.str v1), ("Technician", CellValue.str v2),
    ("Lab", CellValue.str v3), ("Plot", CellValue.str v4), ("Seed Sample", CellValue.str v5),
    ("Humidity", CellValue.str v6), ("Light", CellValue.str v7), ("Temperature", CellValue.str v8),
    ("Equipment Fault", CellValue.bool (isTruthy (if isTruthy v9 then "True" else "False"))),
    ("Plants", CellValue.str v10), ("Blossoms", CellValue.str v11), ("Fruit", CellValue.str v12),
    ("Min Height", CellValue.str v13), ("Max Height", CellValue.str v14),
    ("Med Height", CellValue.str v15), ("Notes", CellValue.str v16)] = _
  rw [isTruthy_writeBool]
  rfl

theorem reread_rawDict (data : Row) (h : data.length = canonicalFields.length) :
    readRecord canonicalFields (serializeRow (rawDict data)) = readRecord canonicalFields data := by
  rw [serializeRow_rawDict data h]

theorem canonicalFields_nodupKeys : canonicalFields.Nodup := by decide

theorem mapSet (f : α → β) (l : List α) (i : Nat) (a : α) :
    (l.set i a).map f = (l.map f).set i (f a) := by
  induction l generalizing i with
  | nil => rfl
  | cons x xs ih =>
    cases i with
    | zero => rfl
    | succ j => simp [List.set, ih]

theorem getSetSelf (l : List α) (i : Nat) (a : α) (h : i < l.length) :
    (l.set i a).get? i = some a := by
  induction l generalizing i with
  | nil => simp at h
  | cons x xs ih =>
    cases i with
    | zero => rfl
    | succ j => simpa using ih j (by simpa using h)

theorem getSetOther (l : List α) (i j : Nat) (a : α) (h : i ≠ j) :
    (l.set i a).get? j = l.get? j := by
  induction l generalizing i j with
  | nil => rfl
  | cons x xs ih =>
    cases i with
    | zero => cases j with
      | zero => exact absurd rfl h
      | succ k => rfl
    | succ i1 => cases j with
      | zero => rfl
      | succ k => simpa using ih i1 k (by omega)

theorem pow_toNat_cast (e : Int) (h : 0 ≤ e) :
    (((10 : Int) ^ e.toNat : Int) : ℚ) = (10 : ℚ) ^ e := by
  push_cast
  rw [← zpow_natCast (10 : ℚ) e.toNat]
  congr 1
  omega

theorem Decimal.blt_iff (a b : Decimal) : Decimal.blt a b = true ↔ a.val < b.val := by
  rcases a with ⟨am, ae⟩
  rcases b with ⟨bm, be⟩
  unfold Decimal.blt Decimal.val
  dsimp only
  have hten : (10 : ℚ) ≠ 0 := by norm_num
  split
  case isTrue h =>
    rw [decide_eq_true_iff]
    have hsplit : (10 : ℚ) ^ be = (10 : ℚ) ^ ae * (10 : ℚ) ^ ((be - ae) : Int) := by
      rw [← zpow_add₀ hten]
      congr 1
      omega
    have hpos : (0 : ℚ) < (10 : ℚ) ^ ae := by positivity
    constructor
    · intro hlt
      rw [hsplit]
      have hc : ((am : ℚ)) < ((bm * (10 : Int) ^ (be - ae).toNat : Int) : ℚ) := by
        exact_mod_cast hlt
      rw [Int.cast_mul, pow_toNat_cast (be - ae) (by omega)] at hc
      calc (am : ℚ) * (10 : ℚ) ^ ae
          < ((bm : ℚ) * (10 : ℚ) ^ ((be - ae) : Int)) * (10 : ℚ) ^ ae := by
            exact mul_lt_mul_of_pos_right hc hpos
        _ = (bm : ℚ) * ((10 : ℚ) ^ ae * (10 : ℚ) ^ ((be - ae) : Int)) := by ring
    · intro hlt
      rw [hsplit] at hlt
      have hc : (am : ℚ) < (bm : ℚ) * (10 : ℚ) ^ ((be - ae) : Int) := by
        have := (mul_lt_mul_right hpos).mp (by calc (am : ℚ) * (10 : ℚ) ^ ae
            < (bm : ℚ) * ((10 : ℚ) ^ ae * (10 : ℚ) ^ ((be - ae) : Int)) := hlt
          _ = ((bm : ℚ) * (10 : ℚ) ^ ((be - ae) : Int)) * (10 : ℚ) ^ ae := by ring)
        exact this
      rw [← pow_toNat_cast (be - ae) (by omega), ← Int.cast_mul] at hc
      exact_mod_cast hc
  case isFalse h =>
    rw [decide_eq_true_iff]
    have hsplit : (10 : ℚ) ^ ae = (10 : ℚ) ^ be * (10 : ℚ) ^ ((ae - be) : Int) := by
      rw [← zpow_add₀ hten]
      congr 1
      omega
    have hpos : (0 : ℚ) < (10 : ℚ) ^ be := by positivity
    constructor
    · intro hlt
      rw [hsplit]
      have hc : ((am * (10 : Int) ^ (ae - be).toNat : Int) : ℚ) < (bm : ℚ) := by
        exact_mod_cast hlt
      rw [Int.cast_mul, pow_toNat_cast (ae - be) (by omega)] at hc
      calc (am : ℚ) * ((10 : ℚ) ^ be * (10 : ℚ) ^ ((ae - be) : Int))
          = ((am : ℚ) * (10 : ℚ) ^ ((ae - be) : Int)) * (10 : ℚ) ^ be := by ring
        _ < (bm : ℚ) * (10 : ℚ) ^ be := by exact mul_lt_mul_of_pos_right hc hpos
    · intro hlt
      rw [hsplit] at hlt
      have hc : (am : ℚ) * (10 : ℚ) ^ ((ae - be) : Int) < (bm : ℚ) := by
        have := (mul_lt_mul_right hpos).mp (by calc ((am : ℚ) * (10 : ℚ) ^ ((ae - be) : Int)) * (10 : ℚ) ^ be
            = (am : ℚ) * ((10 : ℚ) ^ be * (10 : ℚ) ^ ((ae - be) : Int)) := by ring
          _ < (bm : ℚ) * (10 : ℚ) ^ be := hlt)
        exact this
      rw [← pow_toNat_cast (ae - be) (by omega), ← Int.cast_mul] at hc
      exact_mod_cast hc

theorem Decimal.ble_iff (a b : Decimal) : Decimal.ble a b = true ↔ a.val ≤ b.val := by
  unfold Decimal.ble
  rw [Bool.not_eq_true']
  constructor
  · intro h
    by_contra hc
    push_neg at hc
    have := (Decimal.blt_iff b a).mpr hc
    rw [this] at h
    simp at h
  · intro h
    by_contra hc
    rw [Bool.not_eq_false] at hc
    exact absurd ((Decimal.blt_iff b a).mp hc) (not_lt.mpr h)

theorem isTruthy_spec (s : String) :
    isTruthy s = (pyLower s == "true" || pyLower s == "yes" || pyLower s == "1") := by
  unfold isTruthy
  simp [List.contains, Bool.beq_eq_decide_eq, Bool.or_assoc]

/-! ### Claim theorems -/

/-- C7: for the iso-date field, focus-loss validation of "2023-02-30"
fails with the invalid-date error (February 30 is shaped like `YYYY-MM-DD`
but is not a calendar date), and focus-loss validation of "2023-02-28"
succeeds with no error. -/
theorem date_focusout_concrete :
    date_focusout_validate "2023-02-30" = (false, some ErrKind.invalidDate) ∧
    date_focusout_validate "2023-02-28" = (true, none) := by
  constructor <;> rfl

/-- C9: whenever the "Equipment Fault" flag changes to true, each of the
three dependent numeric fields (Humidity, Light, Temperature) is disabled
and has both its value and its error cleared; when the flag changes back to
false the fields are re-enabled and nothing else is touched, so the
previously cleared values and errors stay cleared. -/
theorem fault_toggle_invariant (e : EnvFields) :
    faultChanged true e =
      ⟨⟨false, "", none⟩, ⟨false, "", none⟩, ⟨false, "", none⟩⟩ ∧
    faultChanged false (faultChanged true e) =
      ⟨⟨true, "", none⟩, ⟨true, "", none⟩, ⟨true, "", none⟩⟩ ∧
    (∀ st : FieldState, check_disable false st = ⟨true, st.value, st.error⟩) := by
  refine ⟨rfl, rfl, fun st => rfl⟩

/-- C8: a combobox keystroke (insert action) filters the configured option
values to those of which the proposed text is a case-insensitive prefix:
zero candidates reject the keystroke with no text change, exactly one
candidate rejects the keystroke and programmatically sets the field to
that full option value, and two or more candidates accept the keystroke;
in particular, typing "d" against the options ["A", "B", "C"] is
rejected. -/
theorem combobox_key_validate_spec (values : List String) (proposed : String) :
    combobox_key_validate values proposed "1" =
      (match values.filter (fun x => pyStartsWith (pyLower x) (pyLower proposed)) with
       | [] => (false, none)
       | [x] => (false, some x)
       | _ => (true, none)) ∧
    combobox_key_validate ["A", "B", "C"] "d" "1" = (false, none) := by
  constructor
  · unfold combobox_key_validate
    rcases h : values.filter (fun x => pyStartsWith (pyLower x) (pyLower proposed)) with
      _ | ⟨x, _ | ⟨y, t⟩⟩ <;> simp [h]
  · rfl

/-- C2 (code bug): the spinbox keystroke validator rejects characters
through the membership test `char not in '-123456789'`, whose string omits
the digit `0` and the decimal point, so typing `0` is always rejected even
when the claim's acceptance conditions hold.  The conjuncts show: on the
Plants configuration (min 0, max 20, increment 1, so precision 0), typing
`0` into the empty widget is rejected although `0` is a digit, the
proposed value 0 parses, does not exceed the maximum 20 and has precision
0; typing `2` under the same conditions is accepted; and on the Humidity
configuration (precision -2) typing `.` after "5" is rejected although the
increment implies fractional precision and no `.` is present yet. -/
theorem spinbox_key_validate_rejects_zero_bug :
    spinbox_key_validate 0 ⟨0, 0⟩ ⟨20, 0⟩ '0' "0" "" "0" "1" = some false ∧
    Char.isDigit '0' = true ∧
    decParse "0" = some ⟨0, 0⟩ ∧
    Decimal.blt ⟨20, 0⟩ ⟨0, 0⟩ = false ∧
    spinbox_key_validate 0 ⟨0, 0⟩ ⟨20, 0⟩ '2' "0" "" "2" "1" = some true ∧
    spinbox_key_validate (-2) ⟨5, -1⟩ ⟨520, -1⟩ '.' "1" "5" "5." "1" = some false := by
  refine ⟨rfl, rfl, rfl, rfl, rfl, rfl⟩

/-- C3 (counterexample): focus-loss validation of the empty iso-date
string reports the invalid-date error, not the required-value error the
claim states: the source sets 'A value is required' first, but the
unconditional `strptime` call fails on the empty string and overwrites the
error variable with 'Invalid date'. -/
theorem date_focusout_empty_counterexample :
    date_focusout_validate "" = (false, some ErrKind.invalidDate) ∧
    ErrKind.invalidDate ≠ ErrKind.missingValue := by
  exact ⟨rfl, by decide⟩

/-- C3 (amended): focus-loss validation of an iso-date field succeeds
exactly when the full string parses as `YYYY-MM-DD`; every failing string,
the empty string included, reports the invalid-date error (the
required-value error is set transiently for the empty string and then
overwritten). -/
theorem date_focusout_validate_amended (s : String) :
    ((date_focusout_validate s).1 = true ↔ isValidIsoDate s = true) ∧
    ((date_focusout_validate s).1 = false →
      (date_focusout_validate s).2 = some ErrKind.invalidDate) ∧
    date_focusout_validate "" = (false, some ErrKind.invalidDate) := by
  refine ⟨?_, ?_, rfl⟩ <;> unfold date_focusout_validate <;> by_cases hv : isValidIsoDate s
  · by_cases he : s = ""
    · exact absurd (he ▸ hv) (by decide)
    · simp [hv, he]
  · simp [hv]
  · by_cases he : s = ""
    · exact absurd (he ▸ hv) (by decide)
    · simp [hv, he]
  · simp [hv]

/-- Witness for the C3 amended theorem at the failing input "x". -/
theorem date_focusout_validate_amended_witness :
    (date_focusout_validate "x").1 = false ∧
    (date_focusout_validate "x").2 = some ErrKind.invalidDate :=
  ⟨rfl, (date_focusout_validate_amended "x").2.1 rfl⟩

/-- C6: for a bounded numeric field whose minimum does not exceed its
maximum, focus-loss validation reports the invalid-number error exactly
when the string does not parse as a number, the too-low error when the
parsed value is below the minimum, and the too-high error when it is above
the maximum; in particular, with increment 0.01, min 0.5 and max 52.0,
committing "52.01" fails with the too-high error and committing "52.00"
succeeds with no error. -/
theorem spinbox_focusout_validate_spec (mn mx : Decimal)
    (hmn : Decimal.ble mn mx = true) (v : String) :
    spinbox_focusout_validate mn mx v =
      (match decParse v with
       | none => (false, some ErrKind.invalidNumber)
       | some d =>
         if Decimal.blt d mn then (false, some ErrKind.tooLow)
         else if Decimal.blt mx d then (false, some ErrKind.tooHigh)
         else (true, none)) ∧
    spinbox_focusout_validate ⟨5, -1⟩ ⟨520, -1⟩ "52.01" = (false, some ErrKind.tooHigh) ∧
    spinbox_focusout_validate ⟨5, -1⟩ ⟨520, -1⟩ "52.00" = (true, none) := by
  refine ⟨?_, rfl, rfl⟩
  unfold spinbox_focusout_validate
  cases hp : decParse v with
  | none => rfl
  | some d =>
    cases h1 : Decimal.blt d mn with
    | false => simp [h1]
    | true =>
      cases h2 : Decimal.blt mx d with
      | false => simp [h1, h2]
      | true =>
        exfalso
        have hd : d.val < mn.val := (Decimal.blt_iff d mn).mp h1
        have hx : mx.val < d.val := (Decimal.blt_iff mx d).mp h2
        have hm : mn.val ≤ mx.val := (Decimal.ble_iff mn mx).mp hmn
        linarith

/-- Witness for the C6 theorem on the Humidity bounds (min 0.5, max 52.0)
at the input "52.01". -/
theorem spinbox_focusout_validate_spec_witness :
    spinbox_focusout_validate ⟨5, -1⟩ ⟨520, -1⟩ "52.01" =
      (match decParse "52.01" with
       | none => (false, some ErrKind.invalidNumber)
       | some d =>
         if Decimal.blt d ⟨5, -1⟩ then (false, some ErrKind.tooLow)
         else if Decimal.blt ⟨520, -1⟩ d then (false, some ErrKind.tooHigh)
         else (true, none)) :=
  (spinbox_focusout_validate_spec ⟨5, -1⟩ ⟨520, -1⟩ (by decide) "52.01").1

/-- C1: saving a record over the canonical field set into a fresh store
(absent file) writes the canonical header and the single record, and
reading the store back yields exactly that one record, with every
boolean-typed field normalized to an actual boolean that is true exactly
when the stored text is, case-insensitively, "true", "yes" or "1", and
every other field unchanged (`readRecordSpec` states this normalization in
the claim's words). -/
theorem save_then_read_roundtrip (r : Row) (_hr : r.length = canonicalFields.length) :
    save_record none r none = .ok (some (canonicalFields, [r])) ∧
    get_all_records (some (canonicalFields, [r])) = .ok [readRecordSpec r] := by
  constructor
  · rfl
  · have hmiss : (canonicalFields.filter (fun k => !(canonicalFields.contains k))).isEmpty = true := by
      decide
    have hrr : readRecord canonicalFields r = readRecordSpec r := by
      unfold readRecord readRecordSpec
      refine List.map_congr_left (fun kv _ => ?_)
      rw [isTruthy_spec]
    simp [get_all_records, hmiss, hrr]

/-- Witness for the C1 round-trip theorem on a concrete record whose
boolean field holds "TRUE". -/
theorem save_then_read_roundtrip_witness :
    save_record none sampleRow none = .ok (some (canonicalFields, [sampleRow])) ∧
    get_all_records (some (canonicalFields, [sampleRow])) = .ok [readRecordSpec sampleRow] :=
  save_then_read_roundtrip sampleRow (by decide)

theorem missing_isEmpty_iff (hdr : List String) :
    ((canonicalFields.filter (fun k => !(hdr.contains k))).isEmpty = true) ↔
      (∀ k ∈ canonicalFields, k ∈ hdr) := by
  rw [List.isEmpty_iff, List.filter_eq_nil_iff]
  constructor
  · intro h k hk
    simpa using h k hk
  · intro h k hk
    simpa using h k hk

/-- C5: reading the store returns the stored records in file order; an
absent file yields the empty sequence; and an existing file fails with the
corrupt-store error exactly when its header misses at least one canonical
field key — in particular a header omitting "Plot" fails that way. -/
theorem get_all_records_spec (header : List String) (rows : List Row) :
    get_all_records none = .ok [] ∧
    (get_all_records (some (header, rows)) = .error StoreError.corruptStore ↔
      ∃ k, k ∈ canonicalFields ∧ k ∉ header) ∧
    ((∀ k ∈ canonicalFields, k ∈ header) →
      get_all_records (some (header, rows)) = .ok (rows.map (readRecord header))) ∧
    get_all_records (some (headerNoPlot, rows)) = .error StoreError.corruptStore := by
  refine ⟨rfl, ?_, ?_, rfl⟩
  · by_cases hmiss : (canonicalFields.filter (fun k => !(header.contains k))).isEmpty = true
    · simp only [get_all_records]
      rw [if_pos hmiss]
      constructor
      · intro h
        exact absurd h (by simp)
      · rintro ⟨k, hk, hnk⟩
        exact absurd ((missing_isEmpty_iff header).mp hmiss k hk) hnk
    · simp only [get_all_records]
      rw [if_neg hmiss]
      constructor
      · intro _
        by_contra hno
        push_neg at hno
        exact hmiss ((missing_isEmpty_iff header).mpr hno)
      · intro _
        rfl
  · intro hall
    simp only [get_all_records]
    rw [if_pos ((missing_isEmpty_iff header).mpr hall)]

/-- Witness for the C5 theorem: a store whose header is canonical reads
back its rows in order. -/
theorem get_all_records_spec_witness :
    get_all_records (some (canonicalFields, [sampleRow, sampleRow2])) =
      .ok ([sampleRow, sampleRow2].map (readRecord canonicalFields)) :=
  (get_all_records_spec canonicalFields [sampleRow, sampleRow2]).2.2.1 (by decide)

theorem get_all_records_canonical (rows : List Row) :
    get_all_records (some (canonicalFields, rows)) = .ok (rows.map (readRecord canonicalFields)) := by
  simp only [get_all_records]
  rw [if_pos (by decide)]

theorem pyIndex_nat (n p : Nat) (h : p < n) : pyIndex n (p : Int) = some p := by
  show (if 0 ≤ (if (p : Int) < 0 then (p : Int) + n else (p : Int)) ∧
        (if (p : Int) < 0 then (p : Int) + n else (p : Int)) < n
      then some (if (p : Int) < 0 then (p : Int) + n else (p : Int)).toNat else none) = some p
  rw [if_neg (show ¬((p : Int) < 0) by omega)]
  rw [if_pos (by constructor <;> omega)]
  simp

/-- C4: replacing the record at a valid position `p` of a store with
canonical header rewrites the file so that reading it back yields a
sequence of the same length, whose record at index `p` is the new record
(normalized as on any read) and whose records at every other index are
unchanged. -/
theorem save_record_replaces_in_place (rows : List Row) (data : Row) (p : Nat)
    (hp : p < rows.length)
    (hrows : ∀ row ∈ rows, row.length = canonicalFields.length)
    (hdata : data.length = canonicalFields.length) :
    ∃ f1 recs1,
      save_record (some (canonicalFields, rows)) data (some (p : Int)) = .ok f1 ∧
      get_all_records f1 = .ok recs1 ∧
      recs1.length = rows.length ∧
      recs1.get? p = some (readRecord canonicalFields data) ∧
      (∀ i, i ≠ p →
        recs1.get? i = (rows.map (readRecord canonicalFields)).get? i) := by
  have hidx : pyIndex (rows.map (readRecord canonicalFields)).length (p : Int) = some p := by
    rw [List.length_map]
    exact pyIndex_nat rows.length p hp
  have hsave : save_record (some (canonicalFields, rows)) data (some (p : Int)) =
      .ok (some (canonicalFields,
        (((rows.map (readRecord canonicalFields)).set p (rawDict data)).map serializeRow))) := by
    simp only [save_record, get_all_records_canonical, hidx]
  refine ⟨_, _, hsave, get_all_records_canonical _, ?_, ?_, ?_⟩
  all_goals
    rw [mapSet, mapSet, List.map_map, List.map_map,
      show (rows.map (((readRecord canonicalFields) ∘ serializeRow) ∘ (readRecord canonicalFields))) =
        rows.map (readRecord canonicalFields) from
      List.map_congr_left (fun row hrow => reread_readRecord row (hrows row hrow)),
      reread_rawDict data hdata]
  · simp
  · exact getSetSelf _ p _ (by simpa using hp)
  · intro i hi
    exact getSetOther _ p i _ (fun h => hi h.symm)

/-- Witness for the C4 theorem: replacing the record at position 0 of a
two-record store. -/
theorem save_record_replaces_in_place_witness :
    ∃ f1 recs1,
      save_record (some (canonicalFields, [sampleRow, sampleRow2])) sampleRow2 (some (0 : Int)) =
        .ok f1 ∧
      get_all_records f1 = .ok recs1 ∧
      recs1.length = [sampleRow, sampleRow2].length ∧
      recs1.get? 0 = some (readRecord canonicalFields sampleRow2) ∧
      (∀ i, i ≠ 0 →
        recs1.get? i = ([sampleRow, sampleRow2].map (readRecord canonicalFields)).get? i) :=
  save_record_replaces_in_place [sampleRow, sampleRow2] sampleRow2 0 (by decide)
    (by decide) (by decide)

/-- C10: on a store with canonical header holding `n` records, `get_record`
with a negative position does not fail: position `-k` with `1 ≤ k ≤ n`
returns the record at index `n - k` (so `-1` returns the last record);
every position at or beyond `n`, and every position below `-n`, raises the
index error; and every position in `[-n, n)` succeeds. -/
theorem get_record_negative_index (rows : List Row) (k : Nat)
    (hk1 : 1 ≤ k) (hkn : k ≤ rows.length) :
    get_record (some (canonicalFields, rows)) (-(k : Int)) =
      .ok ((rows.map (readRecord canonicalFields)).getD (rows.length - k) []) ∧
    (∀ i : Int, (rows.length : Int) ≤ i →
      get_record (some (canonicalFields, rows)) i = .error StoreError.indexError) ∧
    (∀ i : Int, i < -(rows.length : Int) →
      get_record (some (canonicalFields, rows)) i = .error StoreError.indexError) ∧
    (∀ i : Int, -(rows.length : Int) ≤ i → i < (rows.length : Int) →
      ∃ rec, get_record (some (canonicalFields, rows)) i = .ok rec) := by
  have hpy : ∀ i : Int, pyIndex (rows.map (readRecord canonicalFields)).length i =
      pyIndex rows.length i := by
    intro i
    rw [List.length_map]
  refine ⟨?_, ?_, ?_, ?_⟩
  · have hidx : pyIndex rows.length (-(k : Int)) = some (rows.length - k) := by
      show (if 0 ≤ (if -(k : Int) < 0 then -(k : Int) + rows.length else -(k : Int)) ∧
            (if -(k : Int) < 0 then -(k : Int) + rows.length else -(k : Int)) < rows.length
          then some (if -(k : Int) < 0 then -(k : Int) + rows.length else -(k : Int)).toNat
          else none) = some (rows.length - k)
      rw [if_pos (show -(k : Int) < 0 by omega)]
      rw [if_pos (by constructor <;> omega)]
      congr 1
      omega
    simp only [get_record, get_all_records_canonical, hpy, hidx]
  · intro i hi
    have hidx : pyIndex rows.length i = none := by
      show (if 0 ≤ (if i < 0 then i + rows.length else i) ∧
            (if i < 0 then i + rows.length else i) < rows.length
          then some (if i < 0 then i + rows.length else i).toNat else none) = none
      rcases lt_or_le i 0 with hneg | hpos
      · omega
      · rw [if_neg (show ¬(i < 0) by omega)]
        rw [if_neg (by omega)]
    simp only [get_record, get_all_records_canonical, hpy, hidx]
  · intro i hi
    have hidx : pyIndex rows.length i = none := by
      show (if 0 ≤ (if i < 0 then i + rows.length else i) ∧
            (if i < 0 then i + rows.length else i) < rows.length
          then some (if i < 0 then i + rows.length else i).toNat else none) = none
      rw [if_pos (show i < 0 by omega)]
      rw [if_neg (by omega)]
    simp only [get_record, get_all_records_canonical, hpy, hidx]
  · intro i hlo hhi
    have hidx : pyIndex rows.length i = some (if i < 0 then i + rows.length else i).toNat := by
      show (if 0 ≤ (if i < 0 then i + rows.length else i) ∧
            (if i < 0 then i + rows.length else i) < rows.length
          then some (if i < 0 then i + rows.length else i).toNat else none) = _
      rw [if_pos ?_]
      rcases lt_or_le i 0 with hneg | hpos
      · rw [if_pos hneg]
        constructor <;> omega
      · rw [if_neg (show ¬(i < 0) by omega)]
        constructor <;> omega
    refine ⟨(rows.map (readRecord canonicalFields)).getD
      (if i < 0 then i + rows.length else i).toNat [], ?_⟩
    simp only [get_record, get_all_records_canonical, hpy, hidx]

/-- Witness for the C10 theorem: position -1 on a two-record store. -/
theorem get_record_negative_index_witness :
    get_record (some (canonicalFields, [sampleRow, sampleRow2])) (-(1 : Int)) =
      .ok (([sampleRow, sampleRow2].map (readRecord canonicalFields)).getD
        ([sampleRow, sampleRow2].length - 1) []) ∧
    (∀ i : Int, (([sampleRow, sampleRow2] : List Row).length : Int) ≤ i →
      get_record (some (canonicalFields, [sampleRow, sampleRow2])) i =
        .error StoreError.indexError) ∧
    (∀ i : Int, i < -(([sampleRow, sampleRow2] : List Row).length : Int) →
      get_record (some (canonicalFields, [sampleRow, sampleRow2])) i =
        .error StoreError.indexError) ∧
    (∀ i : Int, -(([sampleRow, sampleRow2] : List Row).length : Int) ≤ i →
      i < (([sampleRow, sampleRow2] : List Row).length : Int) →
      ∃ rec, get_record (some (canonicalFields, [sampleRow, sampleRow2])) i = .ok rec) :=
  get_record_negative_index [sampleRow, sampleRow2] 1 (by decide) (by decide)
